import Mathlib

/-!
Verification of the ShetSharathi server (src/app.js): a read-only HTTP
front end over a relational store of agricultural product listings.
The store, the two SQL queries and the route handlers are embedded as
executable Lean definitions; theorems below settle the specification
claims about them.
-/

namespace ShetSharathi

/-- A row of the `store_product` table: one product listing. -/
structure Listing where
  product_name : String
  price : Int
  farmerID : Nat
deriving DecidableEq, Repr

/-- A row of the `app_userprofile` table: one seller profile. -/
structure UserProfile where
  id : Nat
  state : String
deriving DecidableEq, Repr

/-- The relational store: the two tables read by the server. -/
structure Store where
  products : List Listing
  profiles : List UserProfile
deriving DecidableEq, Repr

/-- A row produced by `aggregateQuery` in `getDashboard`: per-state
MIN, MAX, COUNT and the diagnostic GROUP_CONCAT column. -/
structure AggRow where
  state : String
  min_price : Int
  max_price : Int
  price_count : Nat
  all_prices : String
deriving DecidableEq, Repr

/-- One entry of the dashboard response body: exactly the four fields
kept by the final `rows.map` in `getDashboard`. -/
structure DashEntry where
  state : String
  min_price : Int
  max_price : Int
  price_count : Nat
deriving DecidableEq, Repr

/-- The JSON body of a response from one of the handlers. -/
inductive Body where
  | errorMsg (msg : String)
  | cropsBody (crops : List String)
  | dashboardBody (entries : List DashEntry)
deriving DecidableEq, Repr

/-- An HTTP response: status code and JSON body. -/
structure Response where
  status : Nat
  body : Body
deriving DecidableEq, Repr

/-- SQLite BINARY collation on TEXT: lexicographic comparison of the
UTF-8 bytes, which coincides with lexicographic comparison of the
code points. -/
def stateLe (a b : String) : Prop := a.data ≤ b.data

instance : DecidableRel stateLe := fun a b => inferInstanceAs (Decidable (a.data ≤ b.data))

instance : IsTotal String stateLe := ⟨fun a b => le_total a.data b.data⟩

instance : IsTrans String stateLe := ⟨fun _ _ _ h h' => le_trans h h'⟩

/-- ORDER BY up.state, sp.price: state under BINARY collation, then
price. -/
def rawRowLe (a b : String × Int) : Prop :=
  a.1.data < b.1.data ∨ (a.1 = b.1 ∧ a.2 ≤ b.2)

instance : DecidableRel rawRowLe := fun a b =>
  inferInstanceAs (Decidable (a.1.data < b.1.data ∨ (a.1 = b.1 ∧ a.2 ≤ b.2)))

/-- The rows of the inner join
`store_product sp JOIN app_userprofile up ON sp.farmerID = up.id`
restricted to `sp.product_name = crop`, as (state, price) pairs. -/
def joinRows (st : Store) (crop : String) : List (String × Int) :=
  (st.products.filter (fun l => l.product_name = crop)).flatMap (fun l =>
    (st.profiles.filter (fun p => p.id = l.farmerID)).map (fun p => (p.state, l.price)))

/-- The `debugQuery` of `getDashboard`: the joined (state, price) rows
ordered by state then price. Its result is only logged. -/
def debugQuery (st : Store) (crop : String) : List (String × Int) :=
  List.insertionSort rawRowLe (joinRows st crop)

/-- The GROUP BY keys of `aggregateQuery`: the distinct states of the
joined rows, ordered ascending (ORDER BY up.state). -/
def groupStates (rows : List (String × Int)) : List String :=
  List.insertionSort stateLe (rows.map Prod.fst).dedup

/-- The prices of the joined rows belonging to one state group. -/
def pricesIn (rows : List (String × Int)) (s : String) : List Int :=
  (rows.filter (fun r => r.1 = s)).map Prod.snd

/-- SQL MIN over a group (the group is never empty in a GROUP BY result). -/
def listMin : List Int → Int
  | [] => 0
  | x :: xs => xs.foldl min x

/-- SQL MAX over a group (the group is never empty in a GROUP BY result). -/
def listMax : List Int → Int
  | [] => 0
  | x :: xs => xs.foldl max x

/-- The `aggregateQuery` of `getDashboard`: per-state MIN, MAX, COUNT
and GROUP_CONCAT over the joined rows, grouped by state and ordered by
state ascending. -/
def aggregateQuery (st : Store) (crop : String) : List AggRow :=
  (groupStates (joinRows st crop)).map (fun s =>
    let ps := pricesIn (joinRows st crop) s
    { state := s
      min_price := listMin ps
      max_price := listMax ps
      price_count := ps.length
      all_prices := String.intercalate "," (ps.map toString) })

/-- Outcome of one `db.all` call: an error, or the rows. -/
abbrev QueryResult (α : Type) := Except Unit α

/-- The body of `getDashboard` after the crop check: run the debug
query, and only if it succeeds run the aggregate query; the final
response keeps the four essential fields of each aggregate row.
Returns the response together with the list of queries issued. -/
def dashboardCore (debugRes : QueryResult (List (String × Int)))
    (aggRes : QueryResult (List AggRow)) : Response × List String :=
  match debugRes with
  | .error _ => (⟨500, .errorMsg "Database error"⟩, ["debug"])
  | .ok _ =>
    match aggRes with
    | .error _ => (⟨500, .errorMsg "Error fetching dashboard data"⟩, ["debug", "aggregate"])
    | .ok rows =>
      (⟨200, .dashboardBody (rows.map (fun r =>
        { state := r.state
          min_price := r.min_price
          max_price := r.max_price
          price_count := r.price_count }))⟩, ["debug", "aggregate"])

/-- `routeHandlers.getDashboard`: reject an absent or empty `crop`
with 400 before any query; otherwise run the two queries. The booleans
say whether each query succeeds against the store. Returns the
response together with the list of queries issued. -/
def getDashboard (st : Store) (crop : Option String) (debugOk aggOk : Bool) :
    Response × List String :=
  match crop with
  | none => (⟨400, .errorMsg "Crop name is required"⟩, [])
  | some c =>
    if c = "" then (⟨400, .errorMsg "Crop name is required"⟩, [])
    else
      dashboardCore
        (if debugOk then .ok (debugQuery st c) else .error ())
        (if aggOk then .ok (aggregateQuery st c) else .error ())

/-- `routeHandlers.getCrops`: SELECT DISTINCT product_name FROM
store_product, wrapped as `{ crops: [...] }`; 500 on query error. -/
def getCrops (st : Store) (ok : Bool) : Response :=
  if ok then ⟨200, .cropsBody (st.products.map Listing.product_name).dedup⟩
  else ⟨500, .errorMsg "Error fetching crops"⟩

/-- One observable step of the SIGINT handler. -/
inductive ShutdownAction where
  | closeStore
  | logError (msg : String)
  | logMsg (msg : String)
  | exitProcess (code : Nat)
deriving DecidableEq, Repr

/-- `serverManager.setupShutdown`: on SIGINT close the store, log the
close error if any, log the closed message, then exit with code 0.
`closeErr` is the error message of a failed close, `none` on success. -/
def sigintTrace (closeErr : Option String) : List ShutdownAction :=
  [ShutdownAction.closeStore] ++
    (match closeErr with
     | some m => [ShutdownAction.logError ("Error closing database: " ++ m)]
     | none => []) ++
    [ShutdownAction.logMsg "Database connection closed", ShutdownAction.exitProcess 0]

/-- The store of the spec scenario: wheat at 10 and 20 from North
sellers and at 15 from a South seller. -/
def wheatStore : Store :=
  { products := [⟨"wheat", 10, 1⟩, ⟨"wheat", 20, 2⟩, ⟨"wheat", 15, 3⟩]
    profiles := [⟨1, "North"⟩, ⟨2, "North"⟩, ⟨3, "South"⟩] }

/-- A store whose single listing has the empty string as product name. -/
def emptyNameStore : Store :=
  { products := [⟨"", 10, 1⟩]
    profiles := [⟨1, "North"⟩] }

/-- The empty store: no listings, no profiles. -/
def emptyStore : Store :=
  { products := [], profiles := [] }

/-! ### Helper lemmas about the aggregation -/

theorem foldl_min_le_init (l : List Int) (a : Int) : l.foldl min a ≤ a := by
  induction l generalizing a with
  | nil => simp
  | cons x xs ih => exact le_trans (ih (min a x)) (min_le_left a x)

theorem init_le_foldl_max (l : List Int) (a : Int) : a ≤ l.foldl max a := by
  induction l generalizing a with
  | nil => simp
  | cons x xs ih => exact le_trans (le_max_left a x) (ih (max a x))

theorem listMin_le_listMax {l : List Int} (h : l ≠ []) : listMin l ≤ listMax l := by
  cases l with
  | nil => exact absurd rfl h
  | cons x xs => exact le_trans (foldl_min_le_init xs x) (init_le_foldl_max xs x)

theorem listMin_eq_listMax_of_length_one {l : List Int} (h : l.length = 1) :
    listMin l = listMax l := by
  obtain ⟨a, rfl⟩ := List.length_eq_one.mp h
  rfl

theorem mem_groupStates {rows : List (String × Int)} {s : String} :
    s ∈ groupStates rows ↔ s ∈ rows.map Prod.fst := by
  unfold groupStates
  rw [List.mem_insertionSort, List.mem_dedup]

theorem groupStates_nodup (rows : List (String × Int)) : (groupStates rows).Nodup :=
  (List.perm_insertionSort stateLe _).nodup_iff.mpr (List.nodup_dedup _)

theorem groupStates_length (rows : List (String × Int)) :
    (groupStates rows).length = (rows.map Prod.fst).dedup.length :=
  List.length_insertionSort _ _

theorem groupStates_sorted (rows : List (String × Int)) :
    List.Sorted stateLe (groupStates rows) :=
  List.sorted_insertionSort stateLe _

theorem pricesIn_length (rows : List (String × Int)) (s : String) :
    (pricesIn rows s).length = (rows.filter (fun row => row.1 = s)).length := by
  unfold pricesIn
  exact List.length_map _ _

theorem pricesIn_ne_nil {rows : List (String × Int)} {s : String}
    (h : s ∈ rows.map Prod.fst) : pricesIn rows s ≠ [] := by
  obtain ⟨r, hr, rfl⟩ := List.mem_map.mp h
  intro hnil
  have hmem : r ∈ rows.filter (fun row => row.1 = r.1) := List.mem_filter.mpr ⟨hr, by simp⟩
  have : r.2 ∈ pricesIn rows r.1 := List.mem_map_of_mem Prod.snd hmem
  rw [hnil] at this
  exact absurd this (List.not_mem_nil r.2)

/-- Projection from an aggregate row to the response entry that
`getDashboard` sends for it. -/
def toEntry (r : AggRow) : DashEntry :=
  { state := r.state
    min_price := r.min_price
    max_price := r.max_price
    price_count := r.price_count }

theorem dashboardCore_ok_map (st : Store) (c : String) :
    dashboardCore (Except.ok (debugQuery st c)) (Except.ok (aggregateQuery st c)) =
      (⟨200, Body.dashboardBody ((aggregateQuery st c).map toEntry)⟩,
        ["debug", "aggregate"]) := rfl

theorem aggregateQuery_states (st : Store) (c : String) :
    (aggregateQuery st c).map AggRow.state = groupStates (joinRows st c) := by
  unfold aggregateQuery
  rw [List.map_map]
  exact List.map_id _

theorem aggregateQuery_row_spec (st : Store) (c : String) {r : AggRow}
    (hr : r ∈ aggregateQuery st c) :
    r.state ∈ (joinRows st c).map Prod.fst ∧
    r.price_count = ((joinRows st c).filter (fun row => row.1 = r.state)).length ∧
    r.min_price ≤ r.max_price ∧
    (((joinRows st c).filter (fun row => row.1 = r.state)).length = 1 →
      r.min_price = r.max_price) := by
  unfold aggregateQuery at hr
  obtain ⟨s, hs, rfl⟩ := List.mem_map.mp hr
  have hmem : s ∈ (joinRows st c).map Prod.fst := mem_groupStates.mp hs
  refine ⟨hmem, ?_, ?_, ?_⟩
  · exact pricesIn_length (joinRows st c) s
  · exact listMin_le_listMax (pricesIn_ne_nil hmem)
  · intro hlen
    exact listMin_eq_listMax_of_length_one
      ((pricesIn_length (joinRows st c) s).trans hlen)

theorem entries_states (st : Store) (c : String) :
    ((aggregateQuery st c).map toEntry).map DashEntry.state = groupStates (joinRows st c) := by
  rw [List.map_map]
  exact aggregateQuery_states st c

/-! ### Claim theorems -/

/-- Claim C1, counterexample: the claim quantifies over every crop name
present in the listings, but the crop name that is the empty string has
N = 1 matching listing in R = 1 region and still gets a 400 error from
`getDashboard` (the handler's truthiness check rejects `""`), not a
one-entry result. -/
theorem dashboard_per_region_counterexample :
    (joinRows emptyNameStore "").length = 1 ∧
    ((joinRows emptyNameStore "").map Prod.fst).dedup.length = 1 ∧
    (getDashboard emptyNameStore (some "") true true).1 =
      ⟨400, Body.errorMsg "Crop name is required"⟩ := by decide

/-- Claim C1, amended with the spec's own "non-empty" qualifier: for
every non-empty crop name, a successful dashboard request returns one
entry per distinct seller region of the matching (joined) listings,
ordered by region name ascending, with `price_count` the number of
matching listings of that region and `min_price ≤ max_price`. -/
theorem dashboard_per_region (st : Store) (X : String) (h : X ≠ "") :
    ∃ es : List DashEntry,
      (getDashboard st (some X) true true).1 = ⟨200, Body.dashboardBody es⟩ ∧
      es.length = ((joinRows st X).map Prod.fst).dedup.length ∧
      (es.map DashEntry.state).Nodup ∧
      List.Sorted stateLe (es.map DashEntry.state) ∧
      (∀ region : String,
        region ∈ es.map DashEntry.state ↔ region ∈ (joinRows st X).map Prod.fst) ∧
      (∀ e ∈ es, e.price_count =
        ((joinRows st X).filter (fun row => row.1 = e.state)).length) ∧
      (∀ e ∈ es, e.min_price ≤ e.max_price) := by
  refine ⟨(aggregateQuery st X).map toEntry, ?_, ?_, ?_, ?_, ?_, ?_, ?_⟩
  · simp only [getDashboard]
    rw [if_neg h]
    exact congrArg Prod.fst (dashboardCore_ok_map st X)
  · calc ((aggregateQuery st X).map toEntry).length
        = (((aggregateQuery st X).map toEntry).map DashEntry.state).length :=
          (List.length_map _ _).symm
      _ = (groupStates (joinRows st X)).length := by rw [entries_states]
      _ = ((joinRows st X).map Prod.fst).dedup.length := groupStates_length _
  · rw [entries_states]
    exact groupStates_nodup _
  · rw [entries_states]
    exact groupStates_sorted _
  · intro region
    rw [entries_states]
    exact mem_groupStates
  · intro e he
    obtain ⟨r, hr, rfl⟩ := List.mem_map.mp he
    exact (aggregateQuery_row_spec st X hr).2.1
  · intro e he
    obtain ⟨r, hr, rfl⟩ := List.mem_map.mp he
    exact (aggregateQuery_row_spec st X hr).2.2.1

/-- Witness for the amended C1 at the spec's wheat scenario. -/
theorem dashboard_per_region_witness :
    "wheat" ≠ "" ∧
    (∃ es : List DashEntry,
      (getDashboard wheatStore (some "wheat") true true).1 = ⟨200, Body.dashboardBody es⟩ ∧
      es.length = ((joinRows wheatStore "wheat").map Prod.fst).dedup.length ∧
      (es.map DashEntry.state).Nodup ∧
      List.Sorted stateLe (es.map DashEntry.state) ∧
      (∀ region : String,
        region ∈ es.map DashEntry.state ↔
          region ∈ (joinRows wheatStore "wheat").map Prod.fst) ∧
      (∀ e ∈ es, e.price_count =
        ((joinRows wheatStore "wheat").filter (fun row => row.1 = e.state)).length) ∧
      (∀ e ∈ es, e.min_price ≤ e.max_price)) :=
  ⟨by decide, dashboard_per_region wheatStore "wheat" (by decide)⟩

/-- Claim C2: on the three-listing wheat store, the dashboard response
is exactly the North and South entries in that order. -/
theorem dashboard_wheat_scenario :
    (getDashboard wheatStore (some "wheat") true true).1 =
      ⟨200, Body.dashboardBody
        [⟨"North", 10, 20, 2⟩, ⟨"South", 15, 15, 1⟩]⟩ := by decide

/-- Claim C3: with the crop parameter absent or empty, the handler
answers 400 with the required-parameter error and issues no query. -/
theorem dashboard_missing_crop (st : Store) (debugOk aggOk : Bool) :
    getDashboard st none debugOk aggOk =
      (⟨400, Body.errorMsg "Crop name is required"⟩, []) ∧
    getDashboard st (some "") debugOk aggOk =
      (⟨400, Body.errorMsg "Crop name is required"⟩, []) :=
  ⟨rfl, rfl⟩

/-- Claim C4, counterexample: a failure of the debug query is a storage
query failure in the handler, yet its body is "Database error", not
"Error fetching dashboard data". -/
theorem dashboard_storage_failure_counterexample :
    (getDashboard wheatStore (some "wheat") false true).1 =
      ⟨500, Body.errorMsg "Database error"⟩ ∧
    Body.errorMsg "Database error" ≠ Body.errorMsg "Error fetching dashboard data" := by
  decide

/-- Claim C4, amended: any storage failure yields status 500; the body
is "Database error" when the debug query fails and
"Error fetching dashboard data" when the aggregate query fails. -/
theorem dashboard_storage_failure (st : Store) (c : String) (h : c ≠ "")
    (debugOk aggOk : Bool) (hfail : debugOk = false ∨ aggOk = false) :
    (getDashboard st (some c) debugOk aggOk).1.status = 500 ∧
    (debugOk = false →
      (getDashboard st (some c) debugOk aggOk).1.body = Body.errorMsg "Database error") ∧
    (debugOk = true → aggOk = false →
      (getDashboard st (some c) debugOk aggOk).1.body =
        Body.errorMsg "Error fetching dashboard data") := by
  cases debugOk <;> cases aggOk <;>
    simp_all [getDashboard, dashboardCore, if_neg h]

/-- Witness for the amended C4 with a failing debug query. -/
theorem dashboard_storage_failure_witness :
    ("wheat" ≠ "" ∧ ((false : Bool) = false ∨ (true : Bool) = false)) ∧
    ((getDashboard wheatStore (some "wheat") false true).1.status = 500 ∧
    ((false : Bool) = false →
      (getDashboard wheatStore (some "wheat") false true).1.body =
        Body.errorMsg "Database error") ∧
    ((false : Bool) = true → (true : Bool) = false →
      (getDashboard wheatStore (some "wheat") false true).1.body =
        Body.errorMsg "Error fetching dashboard data")) :=
  ⟨⟨by decide, Or.inl rfl⟩,
    dashboard_storage_failure wheatStore "wheat" (by decide) false true (Or.inl rfl)⟩

/-- Claim C5: when the debug query fails the aggregate query is never
issued and the request fails with 500; when the debug query succeeds
its rows do not affect `dashboardCore`, whose response is determined by
the aggregate outcome alone. -/
theorem dashboard_debug_gate (st : Store) (c : String) (h : c ≠ "") :
    (∀ aggOk : Bool,
      getDashboard st (some c) false aggOk =
        (⟨500, Body.errorMsg "Database error"⟩, ["debug"])) ∧
    (∀ aggOk : Bool, "aggregate" ∉ (getDashboard st (some c) false aggOk).2) ∧
    (∀ (d1 d2 : List (String × Int)) (aggRes : QueryResult (List AggRow)),
      dashboardCore (Except.ok d1) aggRes = dashboardCore (Except.ok d2) aggRes) := by
  refine ⟨?_, ?_, ?_⟩
  · intro aggOk
    simp [getDashboard, dashboardCore, if_neg h]
  · intro aggOk
    simp [getDashboard, dashboardCore, if_neg h]
  · intro d1 d2 aggRes
    cases aggRes <;> rfl

/-- Witness for C5 at the wheat store. -/
theorem dashboard_debug_gate_witness :
    "wheat" ≠ "" ∧
    ((∀ aggOk : Bool,
      getDashboard wheatStore (some "wheat") false aggOk =
        (⟨500, Body.errorMsg "Database error"⟩, ["debug"])) ∧
    (∀ aggOk : Bool,
      "aggregate" ∉ (getDashboard wheatStore (some "wheat") false aggOk).2) ∧
    (∀ (d1 d2 : List (String × Int)) (aggRes : QueryResult (List AggRow)),
      dashboardCore (Except.ok d1) aggRes = dashboardCore (Except.ok d2) aggRes)) :=
  ⟨by decide, dashboard_debug_gate wheatStore "wheat" (by decide)⟩

/-- Claim C6: a non-empty crop matching no listing yields a 200 with an
empty list once both queries succeed. -/
theorem dashboard_no_match (st : Store) (c : String) (h : c ≠ "")
    (hno : ∀ l ∈ st.products, l.product_name ≠ c) :
    getDashboard st (some c) true true =
      (⟨200, Body.dashboardBody []⟩, ["debug", "aggregate"]) := by
  have hfilter : st.products.filter (fun l => l.product_name = c) = [] := by
    rw [List.filter_eq_nil_iff]
    intro l hl
    simpa using hno l hl
  have hjoin : joinRows st c = [] := by
    unfold joinRows
    rw [hfilter]
    rfl
  have hagg : aggregateQuery st c = [] := by
    unfold aggregateQuery
    rw [hjoin]
    rfl
  simp only [getDashboard]
  rw [if_neg h]
  show dashboardCore (Except.ok (debugQuery st c)) (Except.ok (aggregateQuery st c)) = _
  rw [dashboardCore_ok_map, hagg]
  rfl

/-- Witness for C6: the wheat store holds no rice listing. -/
theorem dashboard_no_match_witness :
    ("rice" ≠ "" ∧ (∀ l ∈ wheatStore.products, l.product_name ≠ "rice")) ∧
    getDashboard wheatStore (some "rice") true true =
      (⟨200, Body.dashboardBody []⟩, ["debug", "aggregate"]) :=
  ⟨⟨by decide, by decide⟩,
    dashboard_no_match wheatStore "rice" (by decide) (by decide)⟩

/-- Claim C7: a successful `/crops` body lists every distinct product
name of the listings table exactly once, however many listings share
it. -/
theorem crops_distinct (st : Store) (name : String) :
    ∃ cs : List String, getCrops st true = ⟨200, Body.cropsBody cs⟩ ∧
      cs.count name =
        if name ∈ st.products.map Listing.product_name then 1 else 0 :=
  ⟨(st.products.map Listing.product_name).dedup, rfl, List.count_dedup _ _⟩

/-- Claim C8: a successful dashboard response is always a plain 200
whose entries are the four-field projection of the aggregate rows (the
`all_prices` diagnostic column is dropped and the equal-min-max warning
changes nothing), and a region whose group has exactly one matching
listing still appears, with equal min and max. -/
theorem dashboard_success_shape (st : Store) (c : String) (h : c ≠ "") :
    (getDashboard st (some c) true true).1 =
      ⟨200, Body.dashboardBody ((aggregateQuery st c).map toEntry)⟩ ∧
    (∀ e ∈ (aggregateQuery st c).map toEntry,
      ((joinRows st c).filter (fun row => row.1 = e.state)).length = 1 →
        e.min_price = e.max_price) := by
  constructor
  · simp only [getDashboard]
    rw [if_neg h]
    exact congrArg Prod.fst (dashboardCore_ok_map st c)
  · intro e he hlen
    obtain ⟨r, hr, rfl⟩ := List.mem_map.mp he
    exact (aggregateQuery_row_spec st c hr).2.2.2 hlen

/-- Witness for C8 at the wheat store, where the South group is a
single listing. -/
theorem dashboard_success_shape_witness :
    "wheat" ≠ "" ∧
    ((getDashboard wheatStore (some "wheat") true true).1 =
      ⟨200, Body.dashboardBody ((aggregateQuery wheatStore "wheat").map toEntry)⟩ ∧
    (∀ e ∈ (aggregateQuery wheatStore "wheat").map toEntry,
      ((joinRows wheatStore "wheat").filter (fun row => row.1 = e.state)).length = 1 →
        e.min_price = e.max_price)) :=
  ⟨by decide, dashboard_success_shape wheatStore "wheat" (by decide)⟩

/-- Claim C9: the SIGINT handler closes the store first and its last
action is a process exit with code 0, whether or not the close
reported an error; no exit with a different code occurs. -/
theorem shutdown_closes_then_exits_zero (closeErr : Option String) :
    (sigintTrace closeErr).head? = some ShutdownAction.closeStore ∧
    (sigintTrace closeErr).getLast? = some (ShutdownAction.exitProcess 0) ∧
    (∀ code : Nat,
      ShutdownAction.exitProcess code ∈ sigintTrace closeErr → code = 0) := by
  cases closeErr with
  | none => exact ⟨rfl, rfl, fun code hc => by simpa [sigintTrace] using hc⟩
  | some m => exact ⟨rfl, rfl, fun code hc => by simpa [sigintTrace] using hc⟩

/-- Claim C10: with an empty listings table and a successful query,
`/crops` answers 200 with an empty crops list. -/
theorem crops_empty_table (st : Store) (h : st.products = []) :
    getCrops st true = ⟨200, Body.cropsBody []⟩ := by
  simp [getCrops, h]

/-- Witness for C10 at the empty store. -/
theorem crops_empty_table_witness :
    emptyStore.products = [] ∧
    getCrops emptyStore true = ⟨200, Body.cropsBody []⟩ :=
  ⟨rfl, crops_empty_table emptyStore rfl⟩

end ShetSharathi
